import Mathlib

/-
Verification of the fishroom web handlers (src/fishroom/web/handlers.py).

The development shallowly embeds the handler logic: Redis list commands
become pure functions on Lean lists, each HTTP handler becomes a function
from its parsed inputs to an explicit outcome value, and Python exceptions
that escape a handler are modelled as explicit error constructors.
-/

namespace Fishroom

/-- Redis LRANGE on a Lean list: negative indices count from the end,
the stop index is clamped to the last element, and a start beyond the
stop yields the empty list.  This is the semantics of the `r.lrange`
calls in handlers.py. -/
def lrange {α : Type} (l : List α) (start stop : Int) : List α :=
  let n : Int := (l.length : Int)
  let s : Int := if start < 0 then max (n + start) 0 else start
  let e : Int := min (if stop < 0 then n + stop else stop) (n - 1)
  if s > e then []
  else (l.drop s.toNat).take (e - s + 1).toNat

/-- The client-supplied window arguments of ChatLogHandler.get, after the
`int(...)` conversions: the raw `last` and `limit` query parameters (absent
when the query string omits them) and whether `embedded` was passed. -/
structure WindowParams where
  requestedLast : Option Int
  requestedLimit : Option Int
  embedded : Bool
deriving DecidableEq

/-- handlers.py line 89: `last = int(self.get_argument("last", mlen)) - 1` —
the default is `mlen`, and one is subtracted from the argument in either
case. -/
def windowLast (mlen : Int) (p : WindowParams) : Int :=
  p.requestedLast.getD mlen - 1

/-- handlers.py line 90: `limit = int(self.get_argument("limit", 15 if embedded else mlen))`. -/
def windowLimit (mlen : Int) (p : WindowParams) : Int :=
  p.requestedLimit.getD (if p.embedded then 15 else mlen)

/-- handlers.py line 92: `start = max(last - limit + 1, 0)`. -/
def windowStart (mlen : Int) (p : WindowParams) : Int :=
  max (windowLast mlen p - windowLimit mlen p + 1) 0

/-- The window of log entries fetched by ChatLogHandler.get:
`r.lrange(key, start, last)` over the (room, date) log. -/
def chatLogWindow {α : Type} (log : List α) (p : WindowParams) : List α :=
  lrange log (windowStart (log.length : Int) p) (windowLast (log.length : Int) p)

/-- The window formula as the specification states it:
`last = requested_last if provided else mlen - 1` (no subtraction on a
provided value).  Kept separate from `windowLast` so the two can be
compared. -/
def specWindowLast (mlen : Int) (p : WindowParams) : Int :=
  p.requestedLast.getD (mlen - 1)

/-- The start index recomputed from the specification variant of `last`. -/
def specWindowStart (mlen : Int) (p : WindowParams) : Int :=
  max (specWindowLast mlen p - windowLimit mlen p + 1) 0

theorem lrange_getElem? {α : Type} (l : List α) (s e : Int)
    (hs : 0 ≤ s) (he : 0 ≤ e) (j : Nat) :
    (lrange l s e)[j]? =
      if (j : Int) ≤ e - s then l[s.toNat + j]? else none := by
  unfold lrange
  have hns : ¬ s < 0 := by omega
  simp only [hns, if_false]
  by_cases hse : s > min e ((l.length : Int) - 1)
  · have hneg : ¬ e < 0 := by omega
    simp only [hneg, if_false, hse, if_true]
    by_cases hj : (j : Int) ≤ e - s
    · have hlen : (l.length : Int) ≤ s := by omega
      have : l.length ≤ s.toNat + j := by omega
      simp [hj, List.getElem?_eq_none this]
    · simp [hj]
  · have hneg : ¬ e < 0 := by omega
    simp only [hneg, if_false, hse, if_true]
    rw [List.getElem?_take, List.getElem?_drop]
    by_cases hj : (j : Int) ≤ e - s
    · by_cases hj2 : j < (min e ((l.length : Int) - 1) - s + 1).toNat
      · simp [hj, hj2]
      · -- here e exceeds the list, and s + j runs past the end
        have hlen : l.length ≤ s.toNat + j := by omega
        simp [hj, hj2, List.getElem?_eq_none hlen]
    · have hj2 : ¬ j < (min e ((l.length : Int) - 1) - s + 1).toNat := by omega
      simp [hj, hj2]

theorem lrange_zero_negOne {α : Type} (l : List α) : lrange l 0 (-1) = l := by
  unfold lrange
  cases l with
  | nil => simp
  | cons a t =>
      have hn : (1 : Int) ≤ ((a :: t).length : Int) := by
        simp only [List.length_cons]
        omega
      have h1 : ¬ ((0 : Int) > min (((a :: t).length : Int) + -1)
          (((a :: t).length : Int) - 1)) := by omega
      have h2 : (min (((a :: t).length : Int) + -1) (((a :: t).length : Int) - 1)
          - 0 + 1).toNat = (a :: t).length := by omega
      simp only [reduceIte, h1, if_false, h2]
      simp

theorem chatLogWindow_getElem? {α : Type} (log : List α) (p : WindowParams)
    (h : 0 ≤ windowLast (log.length : Int) p) (j : Nat) :
    (chatLogWindow log p)[j]? =
      if (j : Int) ≤ windowLast (log.length : Int) p - windowStart (log.length : Int) p
      then log[(windowStart (log.length : Int) p).toNat + j]? else none :=
  lrange_getElem? log _ _ (le_max_right _ _) h j

/-- C1 counterexample: for `mlen = 20`, a provided `last = 19` and
`limit = 15`, the handler computes `start = 4` (not 5, as the stated
formula `last = requested_last` would give) and returns the entries at
indices 4..18, not 5..19: line 89 subtracts one from a provided `last`
as well. -/
theorem chatlog_window_counterexample :
    windowStart 20 ⟨some 19, some 15, false⟩ = 4
    ∧ specWindowStart 20 ⟨some 19, some 15, false⟩ = 5
    ∧ chatLogWindow (List.range 20) ⟨some 19, some 15, false⟩ =
        ((List.range 20).drop 4).take 15
    ∧ chatLogWindow (List.range 20) ⟨some 19, some 15, false⟩ ≠
        ((List.range 20).drop 5).take 15 := by
  refine ⟨by decide, by decide, by decide, by decide⟩

/-- C1 (amended): the window is computed as
`last = (requested_last if provided else mlen) - 1`,
`limit = requested_limit if provided else (15 if embedded else mlen)`,
`start = max(last - limit + 1, 0)`, and whenever `last ≥ 0` the returned
entries are exactly those at indices `[start, last]` (position `j` of the
result is the log entry at index `start + j`, with nothing beyond
`last - start`); when `last ≥ 0` and `start > last` the result is empty,
and an empty log yields an empty result with no error.  Concretely, for
`mlen = 20`, requested `last = 20` (or absent) and `limit = 15`,
`start = 5` and exactly the 15 entries at indices 5 through 19 are
returned. -/
theorem chatlog_window_amended (log : List Nat) (p : WindowParams) :
    (0 ≤ windowLast (log.length : Int) p →
      ∀ j : Nat, (chatLogWindow log p)[j]? =
        if (j : Int) ≤ windowLast (log.length : Int) p - windowStart (log.length : Int) p
        then log[(windowStart (log.length : Int) p).toNat + j]? else none)
    ∧ (0 ≤ windowLast (log.length : Int) p →
        windowLast (log.length : Int) p < windowStart (log.length : Int) p →
        chatLogWindow log p = [])
    ∧ (log = [] → chatLogWindow log p = []) := by
  refine ⟨?_, ?_, ?_⟩
  · intro h j
    exact chatLogWindow_getElem? log p h j
  · intro h hlt
    unfold chatLogWindow lrange
    have hs0 : (0 : Int) ≤ windowStart (log.length : Int) p := le_max_right _ _
    have h1 : ¬ (windowStart (log.length : Int) p < 0) := not_lt.mpr hs0
    have h2 : ¬ (windowLast (log.length : Int) p < 0) := not_lt.mpr h
    have h3 : min (windowLast (log.length : Int) p) ((log.length : Int) - 1) <
        windowStart (log.length : Int) p :=
      lt_of_le_of_lt (min_le_left _ _) hlt
    simp [h1, h2, h3]
  · intro hlog
    subst hlog
    simp [chatLogWindow, lrange]

/-- C1 witness: for a 20-entry log with requested `last = 20` and
`limit = 15`, the first returned entry is the log entry at index 5. -/
theorem chatlog_window_amended_witness :
    (chatLogWindow (List.range 20) ⟨some 20, some 15, false⟩)[0]? = some 5 := by
  have h := (chatlog_window_amended (List.range 20) ⟨some 20, some 15, false⟩).1
    (by decide) 0
  rw [h]
  decide

/-- Modelled from the spec: the Message record of section 3 (models.py is
not under src/).  A stored log entry carries sender, content, date and
time strings, the internal-only `opt` and `receiver` fields (always
present on a freshly stored entry), and `idField`, the numeric index
annotation that the JSON feed adds under the key `id` (absent in
storage). -/
structure StoredMsg where
  sender : String
  content : String
  date : String
  time : String
  opt : Option String
  receiver : Option String
  idField : Option Int
deriving DecidableEq

/-- Python `range(a, b)` over integers, as a list. -/
def pyRange (a b : Int) : List Int :=
  (List.range (b - a).toNat).map fun k : Nat => a + (k : Int)

/-- The loop body of handlers.py lines 97-100: set the `id` key to the
index and pop the `opt` and `receiver` keys. -/
def projectEntry (i : Int) (m : StoredMsg) : StoredMsg :=
  { m with idField := some i, opt := none, receiver := none }

/-- The index sequence `range(start, last+1)` of handlers.py line 97. -/
def feedIdxs (log : List StoredMsg) (p : WindowParams) : List Int :=
  pyRange (windowStart (log.length : Int) p) (windowLast (log.length : Int) p + 1)

/-- The JSON branch of ChatLogHandler.get (lines 94-102): fetch
`lrange(key, start, last)`, then mutate the entries paired by
`zip(range(start, last+1), msgs)` — entries beyond the zip length are
written out unmodified. -/
def jsonFeed (log : List StoredMsg) (p : WindowParams) : List StoredMsg :=
  List.zipWith projectEntry (feedIdxs log p) (chatLogWindow log p)
    ++ (chatLogWindow log p).drop
        (min (feedIdxs log p).length (chatLogWindow log p).length)

theorem pyRange_getElem? (a b : Int) (j : Nat) :
    (pyRange a b)[j]? = if j < (b - a).toNat then some (a + (j : Int)) else none := by
  simp only [pyRange, List.getElem?_map]
  by_cases h : j < (b - a).toNat
  · rw [List.getElem?_range h]
    simp [h]
  · have hlen : (List.range (b - a).toNat).length ≤ j := by
      simpa using Nat.le_of_not_lt h
    rw [List.getElem?_eq_none hlen]
    simp [h]

theorem pyRange_length (a b : Int) : (pyRange a b).length = (b - a).toNat := by
  simp only [pyRange, List.length_map, List.length_range]

theorem lrange_length_le {α : Type} (l : List α) (s e : Int)
    (hs : 0 ≤ s) (he : 0 ≤ e) :
    (lrange l s e).length ≤ (e - s + 1).toNat := by
  unfold lrange
  have h1 : ¬ s < 0 := by omega
  have h2 : ¬ e < 0 := by omega
  simp only [h1, h2, if_false]
  split
  · simp
  · simp only [List.length_take, List.length_drop]
    omega

theorem feedIdxs_getElem? (log : List StoredMsg) (p : WindowParams) (j : Nat) :
    (feedIdxs log p)[j]? =
      if j < (windowLast (log.length : Int) p + 1 - windowStart (log.length : Int) p).toNat
      then some (windowStart (log.length : Int) p + (j : Int)) else none :=
  pyRange_getElem? _ _ j

/-- A stored log entry with both internal fields present and no index
annotation, as entries sit in storage. -/
def sampleMsg : StoredMsg :=
  { sender := "alice", content := "hello", date := "2026-10-05",
    time := "12:00:00", opt := some "o", receiver := some "r", idField := none }

/-- A three-entry (room, date) log. -/
def sampleLog : List StoredMsg := [sampleMsg, sampleMsg, sampleMsg]

/-- C4 counterexample: with the valid non-negative parameter
`last = 0` on a non-empty log, line 89 makes the internal last index -1,
so `lrange(key, 0, -1)` returns the whole log while
`zip(range(0, 0), msgs)` is empty: every entry is returned with `opt`
and `receiver` intact and no `id` annotation. -/
theorem json_feed_counterexample :
    jsonFeed sampleLog ⟨some 0, none, false⟩ = sampleLog
    ∧ sampleMsg.opt = some "o"
    ∧ sampleMsg.receiver = some "r"
    ∧ sampleMsg.idField = none := by
  refine ⟨by decide, rfl, rfl, rfl⟩

/-- C4 (amended): whenever the computed last index is non-negative
(requested `last ≥ 1` or `last` absent with a non-empty log), entry `j`
of the JSON feed is the log entry at index `start + j`, annotated with
`id = start + j` — its zero-based index in the (room, date) log — and
with `opt` and `receiver` removed; when the computed last index is -1
(requested `last = 0`) on a non-empty log the feed instead returns every
entry unannotated and unstripped. -/
theorem json_feed_amended (log : List StoredMsg) (p : WindowParams)
    (h : 0 ≤ windowLast (log.length : Int) p) (j : Nat) :
    (jsonFeed log p)[j]? =
      if (j : Int) ≤ windowLast (log.length : Int) p - windowStart (log.length : Int) p
      then (log[(windowStart (log.length : Int) p).toNat + j]?).map
             (projectEntry (windowStart (log.length : Int) p + (j : Int)))
      else none := by
  have hs0 : (0 : Int) ≤ windowStart (log.length : Int) p := le_max_right _ _
  have hlen : (chatLogWindow log p).length ≤ (feedIdxs log p).length := by
    have h1 := lrange_length_le log (windowStart (log.length : Int) p)
      (windowLast (log.length : Int) p) hs0 h
    have h2 : (feedIdxs log p).length =
        (windowLast (log.length : Int) p + 1 - windowStart (log.length : Int) p).toNat := by
      simp only [feedIdxs, pyRange_length]
    unfold chatLogWindow at *
    omega
  unfold jsonFeed
  rw [min_eq_right hlen, List.drop_length, List.append_nil]
  rw [List.getElem?_zipWith', feedIdxs_getElem?, chatLogWindow_getElem? log p h j]
  by_cases hj : (j : Int) ≤ windowLast (log.length : Int) p - windowStart (log.length : Int) p
  · have hidx : j < (windowLast (log.length : Int) p + 1
        - windowStart (log.length : Int) p).toNat := by omega
    simp [hj, hidx]
  · simp [hj]

/-- C4 witness: on the three-entry log with default parameters, the
first feed entry is the log head annotated with index 0 and stripped. -/
theorem json_feed_amended_witness :
    (jsonFeed sampleLog ⟨none, none, false⟩)[0]? = some (projectEntry 0 sampleMsg) := by
  have h := json_feed_amended sampleLog ⟨none, none, false⟩ (by decide) 0
  rw [h]
  decide

/-- The parts of the global config consulted by the log handlers:
`config["bindings"]` (room names) and `config.get("private_rooms", [])`. -/
structure ChatLogConfig where
  bindings : List String
  privateRooms : List String
deriving DecidableEq

/-- The current local time, as the local day number and the seconds
elapsed since local midnight. -/
structure Now where
  day : Int
  secs : Nat
deriving DecidableEq

/-- handlers.py lines 78-79:
`get_now() - tz.localize(datetime.strptime(date, ...)) > timedelta(days=7)`;
the parsed date is midnight of its day. -/
def retentionExpired (now : Now) (date : Int) : Bool :=
  decide ((now.day - date) * 86400 + (now.secs : Int) > 7 * 86400)

/-- The outcome of ChatLogHandler.get. -/
inductive ChatLogResult
  | roomNotFound                              -- 404 "Room not found"
  | darkHistory                               -- 403 "Dark History Coverred"
  | jsonFeedOut (msgs : List StoredMsg)       -- 200, the JSON feed
  | htmlPage (nextId : Nat) (limit : Int)     -- 200, rendered chat_log.html
deriving DecidableEq

/-- ChatLogHandler.get (lines 66-125) for an already-resolved date and
already-parsed window arguments, paired with whether the log store was
accessed (the `llen` and `lrange` calls of lines 87 and 95). -/
def chatLogGet (cfg : ChatLogConfig) (now : Now) (room : String) (date : Int)
    (p : WindowParams) (wantJson : Bool) (log : List StoredMsg) :
    ChatLogResult × Bool :=
  if room ∉ cfg.bindings ∨ room ∈ cfg.privateRooms then (.roomNotFound, false)
  else if retentionExpired now date then (.darkHistory, false)
  else if wantJson then (.jsonFeedOut (jsonFeed log p), true)
  else (.htmlPage log.length (windowLimit (log.length : Int) p), true)

/-- The outcome of TextStoreHandler.get. -/
inductive TextStoreResult
  | textNotFound                                    -- 404 "text not found"
  | renderText (sender content date time : String)  -- 200, text_store.html
deriving DecidableEq

/-- TextStoreHandler.get (lines 43-60): fetches
`lrange(key, msg_id, msg_id)` directly — no binding, private-room or
retention check appears in its body (room and date only shape the key) —
and 404s exactly when that range is empty.  The second component records
that the store was accessed. -/
def textStoreGet (room : String) (date : Int) (msgId : Int)
    (log : List StoredMsg) : TextStoreResult × Bool :=
  match lrange log msgId msgId with
  | [] => (.textNotFound, true)
  | m :: _ => (.renderText m.sender m.content m.date m.time, true)

/-- C3 counterexample: the permalink handler serves a room that is not in
the binding set: with bindings `["fishroom"]`, a request for room "evil"
with data present renders the stored message (status 200) after touching
the store, instead of the claimed NotFound. -/
theorem permalink_no_access_checks_counterexample :
    ¬ ("evil" ∈ ({ bindings := ["fishroom"], privateRooms := [] }
        : ChatLogConfig).bindings)
    ∧ textStoreGet "evil" 0 0 sampleLog =
        (.renderText "alice" "hello" "2026-10-05" "12:00:00", true) := by
  refine ⟨by decide, by decide⟩

/-- C3 (amended): the paginated history view checks authorization and
retention before touching storage — a room outside the binding set or in
the private-rooms set yields NotFound with no store access, and (room
accepted) a date older than 7 days relative to the current local date
yields Forbidden with no store access — but the single-message permalink
performs no such checks: it always touches storage, for any room and
date, and yields NotFound exactly when the requested index is absent. -/
theorem chatlog_access_retention_amended
    (cfg : ChatLogConfig) (now : Now) (room : String) (date : Int)
    (p : WindowParams) (wantJson : Bool) (log : List StoredMsg) (msgId : Int) :
    (room ∉ cfg.bindings ∨ room ∈ cfg.privateRooms →
      chatLogGet cfg now room date p wantJson log = (.roomNotFound, false))
    ∧ (room ∈ cfg.bindings → room ∉ cfg.privateRooms → now.day - date > 7 →
      chatLogGet cfg now room date p wantJson log = (.darkHistory, false))
    ∧ (textStoreGet room date msgId log).2 = true
    ∧ ((textStoreGet room date msgId log).1 = .textNotFound ↔
        lrange log msgId msgId = []) := by
  refine ⟨?_, ?_, ?_, ?_⟩
  · intro h
    simp [chatLogGet, h]
  · intro h1 h2 h3
    have hmem : ¬ (room ∉ cfg.bindings ∨ room ∈ cfg.privateRooms) := by
      push_neg
      exact ⟨h1, h2⟩
    have hret : retentionExpired now date = true := by
      unfold retentionExpired
      simp only [decide_eq_true_eq]
      omega
    simp [chatLogGet, hmem, hret]
  · cases hl : lrange log msgId msgId <;> simp [textStoreGet, hl]
  · cases hl : lrange log msgId msgId <;> simp [textStoreGet, hl]

/-- C3 witness: with bindings `["fishroom"]`, the history view 404s on
room "evil" without touching the store, 403s on a date 8 days old
without touching the store, and the permalink handler touches the store
for that same old date yet 404s only because index 5 is absent. -/
theorem chatlog_access_retention_amended_witness :
    chatLogGet ⟨["fishroom"], []⟩ ⟨100, 3600⟩ "evil" 100
        ⟨none, none, false⟩ true sampleLog = (.roomNotFound, false)
    ∧ chatLogGet ⟨["fishroom"], []⟩ ⟨100, 3600⟩ "fishroom" 92
        ⟨none, none, false⟩ true sampleLog = (.darkHistory, false)
    ∧ (textStoreGet "fishroom" 92 5 sampleLog).2 = true := by
  refine ⟨?_, ?_, ?_⟩
  · exact (chatlog_access_retention_amended ⟨["fishroom"], []⟩ ⟨100, 3600⟩ "evil" 100
      ⟨none, none, false⟩ true sampleLog 0).1 (by decide)
  · exact (chatlog_access_retention_amended ⟨["fishroom"], []⟩ ⟨100, 3600⟩ "fishroom" 92
      ⟨none, none, false⟩ true sampleLog 0).2.1 (by decide) (by decide) (by decide)
  · exact (chatlog_access_retention_amended ⟨["fishroom"], []⟩ ⟨100, 3600⟩ "fishroom" 92
      ⟨none, none, false⟩ true sampleLog 5).2.2.1

/-- Python `int(...)` applied to a decimal string: an optional sign
followed by digits; `none` models the ValueError raised otherwise. -/
def digitsVal (cs : List Char) : Option Nat :=
  if cs = [] then none
  else if cs.all Char.isDigit then
    some (cs.foldl (fun a c => a * 10 + (c.toNat - 48)) 0)
  else none

/-- Python `int(s)` for a string argument. -/
def pyInt (s : String) : Option Int :=
  match s.toList with
  | '-' :: rest => (digitsVal rest).map fun n : Nat => -(n : Int)
  | '+' :: rest => (digitsVal rest).map fun n : Nat => (n : Int)
  | cs => (digitsVal cs).map fun n : Nat => (n : Int)

/-- Outcome of the argument-conversion step of ChatLogHandler.get. -/
inductive ArgsOutcome
  | uncaughtValueError     -- the ValueError escapes the handler: HTTP 500
  | parsed (p : WindowParams)
deriving DecidableEq

/-- handlers.py lines 89-90: `int(self.get_argument("last", mlen))` and
`int(self.get_argument("limit", ...))` with no validation — a
non-numeric argument raises ValueError (uncaught), and any numeric
value, negative included, flows on into the window computation. -/
def chatLogParseArgs (embedded : Bool) (lastArg limitArg : Option String) :
    ArgsOutcome :=
  match lastArg with
  | none =>
    match limitArg with
    | none => .parsed ⟨none, none, embedded⟩
    | some t =>
      match pyInt t with
      | none => .uncaughtValueError
      | some w => .parsed ⟨none, some w, embedded⟩
  | some s =>
    match pyInt s with
    | none => .uncaughtValueError
    | some v =>
      match limitArg with
      | none => .parsed ⟨some v, none, embedded⟩
      | some t =>
        match pyInt t with
        | none => .uncaughtValueError
        | some w => .parsed ⟨some v, some w, embedded⟩

/-- C6: the handler does not validate `last`/`limit` as non-negative
integers: a non-numeric `last=abc` raises an uncaught ValueError (an
HTTP 500, not a BadRequest 400 with a reason), and a negative `last=-5`
is silently coerced into the window computation — on a 20-entry log it
yields the 15 entries at indices 0..14 rather than any error. -/
theorem chatlog_arg_validation_bug :
    chatLogParseArgs false (some "abc") none = .uncaughtValueError
    ∧ chatLogParseArgs false (some "-5") none = .parsed ⟨some (-5), none, false⟩
    ∧ chatLogWindow (List.range 20) ⟨some (-5), none, false⟩ = List.range 15 := by
  refine ⟨by decide, by decide, by decide⟩

/-- What a GET /api/poll request did, observed from outside:
the final status line, the messages written in the response, the queue
contents afterwards, whether `pr.delete(queue)` ran, the timeout (if
any) passed to the blocking pop, and whether the handler attempted a
second write/finish after `finish()` had already been called. -/
structure PollResult where
  status : Nat
  messages : List String
  queueAfter : List String
  queueDeleted : Bool
  blpopTimeout : Option Nat
  wroteAfterFinish : Bool
deriving DecidableEq

/-- APILongPollingHandler.get (lines 229-251).  On auth failure the
handler sets 403 and calls `finish()` but does not return, so execution
falls through to the queue operations and to the final write/finish.
`arrival` models the message, if any, that BLPOP obtains within its
timeout window on an empty queue. -/
def apiLongPollGet (authOk : Bool) (queue : List String)
    (arrival : Option String) : PollResult :=
  let status := if authOk then 200 else 403
  let finishedEarly := !authOk
  if queue.length > 0 then
    { status := status, messages := lrange queue 0 (-1), queueAfter := [],
      queueDeleted := true, blpopTimeout := none,
      wroteAfterFinish := finishedEarly }
  else
    { status := status, messages := arrival.toList, queueAfter := [],
      queueDeleted := false, blpopTimeout := some 10,
      wroteAfterFinish := finishedEarly }

/-- C2: on a failed authentication the handler does set 403, but the
missing return after `finish()` means processing continues: with one
pending entry the queue is still read, drained and deleted, and a second
write is attempted after the response was finished.  The claim that no
further processing occurs is false. -/
theorem api_poll_auth_failure_bug :
    apiLongPollGet false ["m1"] none =
      { status := 403, messages := ["m1"], queueAfter := [],
        queueDeleted := true, blpopTimeout := none,
        wroteAfterFinish := true } := by
  decide

/-- C5: an authenticated poll on a non-empty queue returns all pending
entries in enqueue order, deletes the queue and answers 200; on an empty
queue it blocks via BLPOP with the fixed timeout 10, returns the single
entry that arrives within the interval, and returns a successful empty
message list (still 200, no error) when nothing arrives. -/
theorem api_poll_drain_and_timeout (queue : List String)
    (arrival : Option String) :
    (queue ≠ [] → apiLongPollGet true queue arrival =
      { status := 200, messages := queue, queueAfter := [],
        queueDeleted := true, blpopTimeout := none,
        wroteAfterFinish := false })
    ∧ (queue = [] → apiLongPollGet true queue arrival =
      { status := 200, messages := arrival.toList, queueAfter := [],
        queueDeleted := false, blpopTimeout := some 10,
        wroteAfterFinish := false }) := by
  constructor
  · intro h
    have hlen : queue.length > 0 := List.length_pos.mpr h
    simp [apiLongPollGet, hlen, lrange_zero_negOne]
  · intro h
    subst h
    simp [apiLongPollGet]

/-- C5 witness: a queue holding "a", "b" is drained in order with a 200,
and an empty queue with an arrival "c" within the timeout returns just
"c" with BLPOP called at timeout 10. -/
theorem api_poll_drain_and_timeout_witness :
    apiLongPollGet true ["a", "b"] none =
      { status := 200, messages := ["a", "b"], queueAfter := [],
        queueDeleted := true, blpopTimeout := none, wroteAfterFinish := false }
    ∧ apiLongPollGet true [] (some "c") =
      { status := 200, messages := ["c"], queueAfter := [],
        queueDeleted := false, blpopTimeout := some 10,
        wroteAfterFinish := false } := by
  constructor
  · exact (api_poll_drain_and_timeout ["a", "b"] none).1 (by decide)
  · exact (api_poll_drain_and_timeout [] (some "c")).2 rfl

/-- Modelled from the spec: the MessageType enum of section 3 (models.py
is not under src/). -/
inductive MessageType
  | text
  | command
deriving DecidableEq

/-- Modelled from the spec: the ChannelType values used by the two
ingress handlers. -/
inductive ChannelType
  | web
  | api
deriving DecidableEq

/-- Modelled from the spec: the Message record as published to the bus
(section 3).  The constructor fills `mtype` from its keyword argument
when one is passed; a caller that omits it gets the fixed constructor
default Text — a constant, not something derived from the content. -/
structure WireMessage where
  channel : ChannelType
  sender : String
  room : String
  content : String
  mtype : MessageType
  date : String
  time : String
deriving DecidableEq

/-- Python truthiness test `if not content` for an optional string. -/
def contentFalsy : Option String → Bool
  | none => true
  | some s => s == ""

/-- Python `str.strip()`: leading and trailing whitespace removed. -/
def pyStrip (s : String) : String :=
  String.mk
    (((s.toList.dropWhile Char.isWhitespace).reverse.dropWhile
        Char.isWhitespace).reverse)

/-- A word character in the sense of the regex `\w`. -/
def isWordChar (c : Char) : Bool :=
  c.isAlpha || c.isDigit || c == '_'

/-- Success of the check on handlers.py line 161, a regex match anchored
at the start of the string: the first character is a word character. -/
def firstIsWordChar (s : String) : Bool :=
  match s.toList with
  | [] => false
  | c :: _ => isWordChar c

/-- The body of a public-form POST /room/... request, after the
`json.loads` attempt of line 143. -/
inductive WebBody
  | malformed
  | fields (content : Option String) (nickname : Option String)
deriving DecidableEq

/-- The outcome of PostMessageHandler.post: its `write_json` (lines
137-139) really sets the status, so a 400 is a 400 here; `okPublished`
is the 200 path together with the message published to the bus. -/
inductive WebPostResult
  | badRequest (reason : String)
  | okPublished (m : WireMessage)
deriving DecidableEq

/-- PostMessageHandler.post (lines 141-179), parameterised by the
collaborator `BaseBotInstance.is_cmd`.  The invalid-char reason string
is abbreviated from the source text. -/
def postMessage (isCmd : String → Bool) (room : String) (body : WebBody)
    (date time : String) : WebPostResult :=
  match body with
  | .malformed => .badRequest "Unable to parse JSON."
  | .fields content nickname =>
    if contentFalsy content then .badRequest "Cannot send empty message"
    else
      let sender := pyStrip (nickname.getD "")
      if sender = "" then .badRequest "Nickname must be set"
      else if ! firstIsWordChar sender then .badRequest "Invalid char found"
      else .okPublished
        { channel := .web, sender := sender, room := room,
          content := content.getD "",
          mtype := if isCmd (content.getD "") then .command else .text,
          date := date, time := time }

/-- Exceptions that escape an API handler; tornado then answers 500. -/
inductive PyExn
  | typeError
  | attributeError
deriving DecidableEq

/-- The body of a POST /api/room/... request as seen by
APIPostMessageHandler.prepare. -/
inductive BodyInput
  | empty
  | malformed
  | parsed (tokenId tokenKey : String) (content : Option String)
deriving DecidableEq

/-- What an API post request did: the final status, the message (if any)
published to the bus, and the exception (if any) that escaped. -/
structure ApiPostResult where
  status : Nat
  publishedMsg : Option WireMessage
  exn : Option PyExn
deriving DecidableEq

/-- APIPostMessageHandler (lines 254-295).  Its `write_json` (lines
270-271) writes a body but ignores its status_code parameter, and the
calls on lines 278 and 283 pass the message positionally — a TypeError,
since `write_json` accepts only keyword arguments past the status — so
those paths raise and tornado answers 500.  On an empty or malformed
body, `prepare` neither sets a status nor finishes, so `post` runs
without `json_data` and raises AttributeError.  Only the fully valid
path publishes and answers 200 with body "OK". -/
def apiPostMessage (room : String) (body : BodyInput)
    (auth : String → String → Bool) (getName : String → String)
    (date time : String) : ApiPostResult :=
  match body with
  | .empty => { status := 500, publishedMsg := none, exn := some .attributeError }
  | .malformed => { status := 500, publishedMsg := none, exn := some .attributeError }
  | .parsed tid tkey content =>
    if ! auth tid tkey then
      { status := 500, publishedMsg := none, exn := some .typeError }
    else if contentFalsy content then
      { status := 500, publishedMsg := none, exn := some .typeError }
    else
      { status := 200,
        publishedMsg := some
          { channel := .api, sender := getName tid, room := room,
            content := content.getD "", mtype := .text,
            date := date, time := time },
        exn := none }

/-- A sample credential checker: only ("good", "key") authenticates. -/
def sampleAuth (tid tkey : String) : Bool :=
  tid == "good" && tkey == "key"

/-- A sample display-name lookup. -/
def sampleGetName (tid : String) : String :=
  if tid == "good" then "Goodwin" else "unknown"

/-- C7: the API ingress never produces the claimed 403/400 statuses: a
failed authentication raises TypeError inside `write_json` (HTTP 500,
though nothing is published), an empty or malformed body leaves `post`
without `json_data` (AttributeError, HTTP 500), and empty content also
raises TypeError; only the valid path publishes and answers 200. -/
theorem api_post_status_bug :
    apiPostMessage "r" (.parsed "bad" "k" (some "hi")) sampleAuth sampleGetName
        "d" "t"
      = { status := 500, publishedMsg := none, exn := some .typeError }
    ∧ apiPostMessage "r" .malformed sampleAuth sampleGetName "d" "t"
      = { status := 500, publishedMsg := none, exn := some .attributeError }
    ∧ apiPostMessage "r" .empty sampleAuth sampleGetName "d" "t"
      = { status := 500, publishedMsg := none, exn := some .attributeError }
    ∧ apiPostMessage "r" (.parsed "good" "key" (some "")) sampleAuth
        sampleGetName "d" "t"
      = { status := 500, publishedMsg := none, exn := some .typeError }
    ∧ apiPostMessage "r" (.parsed "good" "key" (some "hi")) sampleAuth
        sampleGetName "d" "t"
      = { status := 200,
          publishedMsg := some
            { channel := .api, sender := "Goodwin",
              room := "r", content := "hi", mtype := .text,
              date := "d", time := "t" },
          exn := none } := by
  refine ⟨by decide, by decide, by decide, by decide, by decide⟩

/-- The command-prefix rule used in the examples below: the content
begins with a dot. -/
def dotIsCmd (s : String) : Bool :=
  match s.toList with
  | [] => false
  | c :: _ => c == '.'

/-- C9 counterexample: for the command-prefixed content ".help", the
public form publishes message_type Command, but the credentialed API
ingress (line 288) passes no mtype to the Message constructor and
publishes the default Text. -/
theorem ingress_mtype_counterexample :
    dotIsCmd ".help" = true
    ∧ postMessage dotIsCmd "r" (.fields (some ".help") (some "bob")) "d" "t"
      = .okPublished
          { channel := .web, sender := "bob", room := "r",
            content := ".help", mtype := .command, date := "d", time := "t" }
    ∧ (apiPostMessage "r" (.parsed "good" "key" (some ".help")) sampleAuth
        sampleGetName "d" "t").publishedMsg.map WireMessage.mtype
      = some MessageType.text := by
  refine ⟨by decide, by decide, by decide⟩

/-- C9 (amended): only the public-form ingress classifies message_type
with the bot-instance command-prefix rule; the credentialed API ingress
omits the mtype argument, so every message it publishes carries the
constructor default Text regardless of the content. -/
theorem ingress_mtype_amended (isCmd : String → Bool)
    (auth : String → String → Bool) (getName : String → String)
    (room content nick tid tkey date time : String)
    (hc : content ≠ "")
    (hw : firstIsWordChar (pyStrip nick) = true)
    (ha : auth tid tkey = true) :
    postMessage isCmd room (.fields (some content) (some nick)) date time
      = .okPublished
          { channel := .web, sender := pyStrip nick, room := room,
            content := content,
            mtype := if isCmd content then .command else .text,
            date := date, time := time }
    ∧ apiPostMessage room (.parsed tid tkey (some content)) auth getName
        date time
      = { status := 200,
          publishedMsg := some
            { channel := .api, sender := getName tid,
              room := room, content := content, mtype := .text,
              date := date, time := time },
          exn := none } := by
  have hne : pyStrip nick ≠ "" := by
    intro h
    rw [h] at hw
    simp [firstIsWordChar] at hw
  constructor
  · simp [postMessage, contentFalsy, hc, hne, hw]
  · simp [apiPostMessage, contentFalsy, hc, ha]

/-- C9 witness: with the dot-prefix rule and content ".st", the form
path publishes Command while the API path publishes Text. -/
theorem ingress_mtype_amended_witness :
    postMessage dotIsCmd "r" (.fields (some ".st") (some "bob")) "d" "t"
      = .okPublished
          { channel := .web, sender := "bob", room := "r",
            content := ".st", mtype := .command, date := "d", time := "t" }
    ∧ (apiPostMessage "r" (.parsed "good" "key" (some ".st")) sampleAuth
        sampleGetName "d" "t").publishedMsg.map WireMessage.mtype
      = some MessageType.text := by
  have h := ingress_mtype_amended dotIsCmd sampleAuth sampleGetName
    "r" ".st" "bob" "good" "key" "d" "t" (by decide) (by decide) (by decide)
  constructor
  · rw [h.1]
    decide
  · rw [h.2]
    decide

/-- C10: the public form strips the nickname before validation: a
whitespace-only nickname is rejected with 400 "Nickname must be set"
and nothing is published, while any raw nickname whose first character
after trimming is a word character is accepted (leading whitespace
included), and the published sender is the trimmed nickname. -/
theorem nickname_trim (isCmd : String → Bool) (room : String)
    (content nickRaw date time : String) (hc : content ≠ "") :
    (pyStrip nickRaw = "" →
      postMessage isCmd room (.fields (some content) (some nickRaw)) date time
        = .badRequest "Nickname must be set")
    ∧ (firstIsWordChar (pyStrip nickRaw) = true →
      postMessage isCmd room (.fields (some content) (some nickRaw)) date time
        = .okPublished
            { channel := .web, sender := pyStrip nickRaw,
              room := room, content := content,
              mtype := if isCmd content then .command else .text,
              date := date, time := time }) := by
  constructor
  · intro h
    simp [postMessage, contentFalsy, hc, h]
  · intro hw
    have hne : pyStrip nickRaw ≠ "" := by
      intro h
      rw [h] at hw
      simp [firstIsWordChar] at hw
    simp [postMessage, contentFalsy, hc, hne, hw]

/-- C10 witness: a whitespace-only nickname is rejected with the exact
reason, and "  bob  " is accepted with published sender "bob". -/
theorem nickname_trim_witness :
    postMessage dotIsCmd "r" (.fields (some "hi") (some " \t ")) "d" "t"
      = .badRequest "Nickname must be set"
    ∧ postMessage dotIsCmd "r" (.fields (some "hi") (some "  bob  ")) "d" "t"
      = .okPublished
          { channel := .web, sender := "bob", room := "r",
            content := "hi", mtype := .text, date := "d", time := "t" } := by
  constructor
  · exact (nickname_trim dotIsCmd "r" "hi" " \t " "d" "t" (by decide)).1
      (by decide)
  · have h := (nickname_trim dotIsCmd "r" "hi" "  bob  " "d" "t"
      (by decide)).2 (by decide)
    rw [h]
    decide

/-- The observable state of one tornadoredis client created by a
MessageStreamHandler connection. -/
structure RedisClientState where
  chan : Option String
  connected : Bool
deriving DecidableEq

/-- The state of one websocket connection: every redis client it ever
created (in creation order), the index of the client currently held in
`self.r`, and `self.redis_chan`. -/
structure WSConn where
  clients : List RedisClientState
  current : Option Nat
  redisChan : Option String
deriving DecidableEq

/-- A fresh connection: `self.r = None` (line 186). -/
def WSConn.init : WSConn := { clients := [], current := none, redisChan := none }

/-- MessageStreamHandler.on_message with a parsed join directive (lines
191-204): `self.r = get_redis()` creates a fresh client and overwrites
the handle, and `_listen` subscribes it to the room channel.  The
previously held client, if any, is neither unsubscribed nor
disconnected. -/
def onMessageJoin (c : WSConn) (room : String) : WSConn :=
  { clients := c.clients ++ [{ chan := some room, connected := true }],
    current := some c.clients.length,
    redisChan := some room }

/-- on_close (lines 215-219): only the client currently held in `self.r`
is unsubscribed (when subscribed) and disconnected. -/
def onClose (c : WSConn) : WSConn :=
  match c.current with
  | none => c
  | some i =>
    { c with clients := c.clients.set i { chan := none, connected := false } }

/-- The channels this connection still holds live subscriptions to. -/
def activeSubs (c : WSConn) : List String :=
  c.clients.filterMap fun r => if r.connected then r.chan else none

/-- How many copies of a message published on `chan` this connection
receives: every connected client subscribed to `chan` fires `_on_update`,
which writes the payload to the websocket. -/
def deliveredCopies (c : WSConn) (chan : String) : Nat :=
  (c.clients.filter fun r => r.connected && decide (r.chan = some chan)).length

/-- C8 counterexample: joining "R1" and then "R2" leaves the connection
with two live subscriptions, and a message published to "R1" is still
delivered to the connection — the prior subscription is not replaced. -/
theorem ws_second_join_counterexample :
    activeSubs (onMessageJoin (onMessageJoin WSConn.init "R1") "R2")
      = ["R1", "R2"]
    ∧ deliveredCopies (onMessageJoin (onMessageJoin WSConn.init "R1") "R2") "R1"
      = 1 := by
  refine ⟨by decide, by decide⟩

/-- C8 (amended): a second join directive does not replace the prior
subscription: it creates a fresh client subscribed to the new room and
overwrites the handle, leaving both subscriptions active, so the
connection keeps receiving messages published to the first room; and
closing the connection releases only the most recently created client,
leaving the first-room subscription live. -/
theorem ws_second_join_amended (r1 r2 : String) (h : r1 ≠ r2) :
    activeSubs (onMessageJoin (onMessageJoin WSConn.init r1) r2) = [r1, r2]
    ∧ deliveredCopies (onMessageJoin (onMessageJoin WSConn.init r1) r2) r1 = 1
    ∧ onClose (onMessageJoin (onMessageJoin WSConn.init r1) r2)
      = { clients := [{ chan := some r1, connected := true },
                      { chan := none, connected := false }],
          current := some 1, redisChan := some r2 } := by
  refine ⟨?_, ?_, ?_⟩
  · rfl
  · simp [deliveredCopies, onMessageJoin, WSConn.init, h.symm]
  · rfl

/-- C8 witness: the amended behaviour at the concrete rooms R1, R2. -/
theorem ws_second_join_amended_witness :
    deliveredCopies (onMessageJoin (onMessageJoin WSConn.init "R1") "R2") "R2"
      = 1 ∧
    onClose (onMessageJoin (onMessageJoin WSConn.init "R1") "R2")
      = { clients := [{ chan := some "R1", connected := true },
                      { chan := none, connected := false }],
          current := some 1, redisChan := some "R2" } := by
  refine ⟨by decide, (ws_second_join_amended "R1" "R2" (by decide)).2.2⟩

end Fishroom
